import Mathlib

/-!
Formal model of src/failsafe_recovery.py (Prometheus failsafe and recovery
system): the health monitor, the failure classifier, the recovery-plan
executor and the checkpoint store, as a shallow embedding in Lean, together
with theorems settling the specification claims about them.

Modelling conventions:
* Python dicts that are keyed registries are modelled as lists of records in
  insertion order (registration keys are unique in every scenario used).
* Wall-clock values (`time.time()`, `datetime.now()`) are modelled as a `Nat`
  carried in the state; `time.sleep` calls have no observable effect in the
  model and are dropped.
* Exceptions are modelled with `Except`/explicit outcome constructors at the
  boundaries where the source raises or catches them.
-/

namespace FailsafeRecovery

/-! ## Health monitor (class SystemHealthMonitor) -/

/-- Registration record of one health probe, modelling the dict entry stored
by `SystemHealthMonitor.register_health_check` (failsafe_recovery.py lines
61-69): the probe name, the `critical` flag and the consecutive failure
counter `failure_count`.  The `last_result` and `last_success` fields of the
source entry are write-only bookkeeping not observed by any claim and are not
carried in the model. -/
structure CheckInfo where
  name : String
  critical : Bool
  failure_count : Nat
deriving DecidableEq, Repr

/-- Behaviour of one probe call during a monitoring pass: the probe either
returns a result dict carrying a `status` string and an optional `message`
(`ret`), or raises an exception whose text (`str(e)`) is `msg` (`exn`).
The source's probes are callables; a monitoring pass observes exactly this
outcome per probe, so the model passes the outcomes as data. -/
inductive ProbeOutcome where
  | ret (status : String) (message : Option String)
  | exn (msg : String)
deriving DecidableEq, Repr

/-- One entry of `results['critical_failures']` / `results['warnings']` in
`run_health_checks`: the probe name, the failure message and the updated
consecutive-failure count. -/
structure FailureRecord where
  check : String
  message : String
  failure_count : Nat
deriving DecidableEq, Repr

/-- Accumulated state of one `run_health_checks` pass, mirroring the local
variables `critical_failures`, `warnings` (the two counters declared at
lines 81-82) together with the lists built inside the `results` dict and the
updated probe registry.  `checks` holds `(name, status, message)` triples for
`results['checks']`; the `details` sub-dict is not observed by any claim and
is dropped. -/
structure MonState where
  criticalCount : Nat
  warnCount : Nat
  critical_failures : List FailureRecord
  warnings : List FailureRecord
  checks : List (String × String × String)
  infos : List CheckInfo
deriving DecidableEq, Repr

/-- Processing of a single registered probe inside the `for` loop of
`run_health_checks` (lines 84-145): a `PASS` result resets the failure
counter; any other returned status (including `WARN`) takes the failure
branch at line 97, incrementing the counter and routing the record into
`critical_failures` or `warnings` by the `critical` flag; an exception is
caught at line 122, counted the same way, recorded with the message
`"Health check error: " ++ str(e)` and status `ERROR`. -/
def stepCheck (st : MonState) (c : CheckInfo × ProbeOutcome) : MonState :=
  match c with
  | (info, .ret status msg) =>
    if status = "PASS" then
      { st with
        checks := st.checks ++ [(info.name, "PASS", msg.getD "Check passed")],
        infos := st.infos ++ [{ info with failure_count := 0 }] }
    else
      if info.critical then
        { st with
          criticalCount := st.criticalCount + 1,
          critical_failures := st.critical_failures ++
            [⟨info.name, msg.getD "Critical check failed", info.failure_count + 1⟩],
          checks := st.checks ++ [(info.name, "FAIL", msg.getD "Check failed")],
          infos := st.infos ++ [{ info with failure_count := info.failure_count + 1 }] }
      else
        { st with
          warnCount := st.warnCount + 1,
          warnings := st.warnings ++
            [⟨info.name, msg.getD "Check failed", info.failure_count + 1⟩],
          checks := st.checks ++ [(info.name, "FAIL", msg.getD "Check failed")],
          infos := st.infos ++ [{ info with failure_count := info.failure_count + 1 }] }
  | (info, .exn m) =>
      if info.critical then
        { st with
          criticalCount := st.criticalCount + 1,
          critical_failures := st.critical_failures ++
            [⟨info.name, "Health check error: " ++ m, info.failure_count + 1⟩],
          checks := st.checks ++ [(info.name, "ERROR", "Health check error: " ++ m)],
          infos := st.infos ++ [{ info with failure_count := info.failure_count + 1 }] }
      else
        { st with
          warnCount := st.warnCount + 1,
          warnings := st.warnings ++
            [⟨info.name, "Health check error: " ++ m, info.failure_count + 1⟩],
          checks := st.checks ++ [(info.name, "ERROR", "Health check error: " ++ m)],
          infos := st.infos ++ [{ info with failure_count := info.failure_count + 1 }] }

/-- Left-to-right processing of the registry by the `for name, check_info in
self.health_checks.items()` loop of `run_health_checks`. -/
def processChecks (st : MonState) : List (CheckInfo × ProbeOutcome) → MonState
  | [] => st
  | c :: rest => processChecks (stepCheck st c) rest

/-- Verdict computation of `run_health_checks` lines 147-153: the
`results['overall_health']` field starts as `HEALTHY` and is overwritten from
the two counters. -/
def overallOf (criticalFailures warnings : Nat) : String :=
  if criticalFailures > 0 then "CRITICAL"
  else if warnings > 2 then "DEGRADED"
  else if warnings > 0 then "WARNING"
  else "HEALTHY"

/-- Result dict of one monitoring pass (`results` in `run_health_checks`),
without the `timestamp` field (wall clock). -/
structure HealthResults where
  overall_health : String
  checks : List (String × String × String)
  critical_failures : List FailureRecord
  warnings : List FailureRecord
  infos : List CheckInfo
deriving DecidableEq, Repr

/-- `SystemHealthMonitor.run_health_checks` (lines 71-160) over a registry
whose probes behave as given: process every registered probe in order, then
derive the overall verdict from the failure counters.  `infos` is the updated
registry (the in-place mutation of `self.health_checks`). -/
def run_health_checks (l : List (CheckInfo × ProbeOutcome)) : HealthResults :=
  let st := processChecks ⟨0, 0, [], [], [], []⟩ l
  ⟨overallOf st.criticalCount st.warnCount, st.checks, st.critical_failures,
    st.warnings, st.infos⟩

lemma stepCheck_inv (st : MonState) (c : CheckInfo × ProbeOutcome)
    (h1 : st.criticalCount = st.critical_failures.length)
    (h2 : st.warnCount = st.warnings.length) :
    (stepCheck st c).criticalCount = (stepCheck st c).critical_failures.length ∧
    (stepCheck st c).warnCount = (stepCheck st c).warnings.length := by
  obtain ⟨info, o⟩ := c
  cases o with
  | ret status msg =>
      by_cases hs : status = "PASS" <;> by_cases hc : info.critical <;>
        simp [stepCheck, hs, hc, h1, h2]
  | exn m =>
      by_cases hc : info.critical <;> simp [stepCheck, hc, h1, h2]

lemma processChecks_inv (l : List (CheckInfo × ProbeOutcome)) (st : MonState)
    (h1 : st.criticalCount = st.critical_failures.length)
    (h2 : st.warnCount = st.warnings.length) :
    (processChecks st l).criticalCount = (processChecks st l).critical_failures.length ∧
    (processChecks st l).warnCount = (processChecks st l).warnings.length := by
  induction l generalizing st with
  | nil => exact ⟨h1, h2⟩
  | cons c rest ih =>
      have h := stepCheck_inv st c h1 h2
      exact ih (stepCheck st c) h.1 h.2

/-- Initial accumulator of a monitoring pass: both counters are zero and all
lists of the `results` dict start empty (lines 73-82). -/
def initMonState : MonState := ⟨0, 0, [], [], [], []⟩

lemma processChecks_append (st : MonState) (l₁ l₂ : List (CheckInfo × ProbeOutcome)) :
    processChecks st (l₁ ++ l₂) = processChecks (processChecks st l₁) l₂ := by
  induction l₁ generalizing st with
  | nil => rfl
  | cons c rest ih => simpa [processChecks] using ih (stepCheck st c)

lemma stepCheck_fields (st : MonState) (c : CheckInfo × ProbeOutcome) :
    ∃ t₁ t₂ t₃ t₄,
      (stepCheck st c).critical_failures = st.critical_failures ++ t₁ ∧
      (stepCheck st c).warnings = st.warnings ++ t₂ ∧
      (stepCheck st c).checks = st.checks ++ t₃ ∧
      (stepCheck st c).infos = st.infos ++ t₄ := by
  obtain ⟨info, o⟩ := c
  cases o with
  | ret status msg =>
      by_cases hs : status = "PASS"
      · exact ⟨[], [], [(info.name, "PASS", msg.getD "Check passed")],
          [{ info with failure_count := 0 }],
          by simp [stepCheck, hs], by simp [stepCheck, hs],
          by simp [stepCheck, hs], by simp [stepCheck, hs]⟩
      · by_cases hc : info.critical
        · exact ⟨[⟨info.name, msg.getD "Critical check failed", info.failure_count + 1⟩],
            [], [(info.name, "FAIL", msg.getD "Check failed")],
            [{ info with failure_count := info.failure_count + 1 }],
            by simp [stepCheck, hs, hc], by simp [stepCheck, hs, hc],
            by simp [stepCheck, hs, hc], by simp [stepCheck, hs, hc]⟩
        · exact ⟨[], [⟨info.name, msg.getD "Check failed", info.failure_count + 1⟩],
            [(info.name, "FAIL", msg.getD "Check failed")],
            [{ info with failure_count := info.failure_count + 1 }],
            by simp [stepCheck, hs, hc], by simp [stepCheck, hs, hc],
            by simp [stepCheck, hs, hc], by simp [stepCheck, hs, hc]⟩
  | exn m =>
      by_cases hc : info.critical
      · exact ⟨[⟨info.name, "Health check error: " ++ m, info.failure_count + 1⟩],
          [], [(info.name, "ERROR", "Health check error: " ++ m)],
          [{ info with failure_count := info.failure_count + 1 }],
          by simp [stepCheck, hc], by simp [stepCheck, hc],
          by simp [stepCheck, hc], by simp [stepCheck, hc]⟩
      · exact ⟨[], [⟨info.name, "Health check error: " ++ m, info.failure_count + 1⟩],
          [(info.name, "ERROR", "Health check error: " ++ m)],
          [{ info with failure_count := info.failure_count + 1 }],
          by simp [stepCheck, hc], by simp [stepCheck, hc],
          by simp [stepCheck, hc], by simp [stepCheck, hc]⟩

lemma processChecks_fields (st : MonState) (l : List (CheckInfo × ProbeOutcome)) :
    ∃ t₁ t₂ t₃ t₄,
      (processChecks st l).critical_failures = st.critical_failures ++ t₁ ∧
      (processChecks st l).warnings = st.warnings ++ t₂ ∧
      (processChecks st l).checks = st.checks ++ t₃ ∧
      (processChecks st l).infos = st.infos ++ t₄ := by
  induction l generalizing st with
  | nil => exact ⟨[], [], [], [], by simp [processChecks], by simp [processChecks],
      by simp [processChecks], by simp [processChecks]⟩
  | cons c rest ih =>
      obtain ⟨a₁, a₂, a₃, a₄, h₁, h₂, h₃, h₄⟩ := stepCheck_fields st c
      obtain ⟨b₁, b₂, b₃, b₄, g₁, g₂, g₃, g₄⟩ := ih (stepCheck st c)
      exact ⟨a₁ ++ b₁, a₂ ++ b₂, a₃ ++ b₃, a₄ ++ b₄,
        by simp [processChecks, g₁, h₁], by simp [processChecks, g₂, h₂],
        by simp [processChecks, g₃, h₃], by simp [processChecks, g₄, h₄]⟩

lemma processChecks_mem_mono (st : MonState) (l : List (CheckInfo × ProbeOutcome)) :
    (∀ x ∈ st.critical_failures, x ∈ (processChecks st l).critical_failures) ∧
    (∀ x ∈ st.warnings, x ∈ (processChecks st l).warnings) ∧
    (∀ x ∈ st.checks, x ∈ (processChecks st l).checks) ∧
    (∀ x ∈ st.infos, x ∈ (processChecks st l).infos) := by
  obtain ⟨t₁, t₂, t₃, t₄, h₁, h₂, h₃, h₄⟩ := processChecks_fields st l
  refine ⟨fun x hx => ?_, fun x hx => ?_, fun x hx => ?_, fun x hx => ?_⟩
  · rw [h₁]; exact List.mem_append_left _ hx
  · rw [h₂]; exact List.mem_append_left _ hx
  · rw [h₃]; exact List.mem_append_left _ hx
  · rw [h₄]; exact List.mem_append_left _ hx

/-- C1.  For every monitoring pass, `run_health_checks` returns the overall
verdict CRITICAL if at least one critical probe failed this pass (the
`critical_failures` list is nonempty); otherwise DEGRADED if the number of
warnings (non-critical failures) is greater than 2; otherwise WARNING if it
is greater than 0; otherwise HEALTHY. -/
theorem run_health_checks_overall_verdict (l : List (CheckInfo × ProbeOutcome)) :
    (run_health_checks l).overall_health =
      (if (run_health_checks l).critical_failures.length > 0 then "CRITICAL"
       else if (run_health_checks l).warnings.length > 2 then "DEGRADED"
       else if (run_health_checks l).warnings.length > 0 then "WARNING"
       else "HEALTHY") := by
  have h := processChecks_inv l ⟨0, 0, [], [], [], []⟩ rfl rfl
  simp only [run_health_checks, overallOf, h.1, h.2]

/-- C8 (amended).  During `run_health_checks`, a probe that raises an
exception never propagates it out of the monitoring pass (the model of the
pass is a total function whose exception branch is the `except` handler at
line 122): the probe is counted like an explicit FAIL — its
consecutive-failure counter is incremented and the record is routed into
`critical_failures` if the probe is critical, else into `warnings` — but the
recorded failure message is `"Health check error: "` followed by the
exception text (not the bare exception message), and the per-probe entry in
the `checks` map carries status `ERROR`. -/
theorem run_health_checks_probe_exception
    (pre post : List (CheckInfo × ProbeOutcome)) (info : CheckInfo) (m : String) :
    (if info.critical then
        (⟨info.name, "Health check error: " ++ m, info.failure_count + 1⟩ : FailureRecord) ∈
          (run_health_checks (pre ++ (info, ProbeOutcome.exn m) :: post)).critical_failures
      else
        (⟨info.name, "Health check error: " ++ m, info.failure_count + 1⟩ : FailureRecord) ∈
          (run_health_checks (pre ++ (info, ProbeOutcome.exn m) :: post)).warnings) ∧
    (info.name, "ERROR", "Health check error: " ++ m) ∈
      (run_health_checks (pre ++ (info, ProbeOutcome.exn m) :: post)).checks ∧
    ({ info with failure_count := info.failure_count + 1 } : CheckInfo) ∈
      (run_health_checks (pre ++ (info, ProbeOutcome.exn m) :: post)).infos := by
  have hrun : ∀ L, (run_health_checks L).critical_failures =
        (processChecks initMonState L).critical_failures ∧
      (run_health_checks L).warnings = (processChecks initMonState L).warnings ∧
      (run_health_checks L).checks = (processChecks initMonState L).checks ∧
      (run_health_checks L).infos = (processChecks initMonState L).infos := by
    intro L; exact ⟨rfl, rfl, rfl, rfl⟩
  have hsplit : processChecks initMonState (pre ++ (info, ProbeOutcome.exn m) :: post) =
      processChecks (stepCheck (processChecks initMonState pre) (info, ProbeOutcome.exn m))
        post := by
    rw [processChecks_append]; rfl
  set stPre := processChecks initMonState pre with hstPre
  set stMid := stepCheck stPre (info, ProbeOutcome.exn m) with hstMid
  have hmono := processChecks_mem_mono stMid post
  obtain ⟨h₁, h₂, h₃, h₄⟩ := hrun (pre ++ (info, ProbeOutcome.exn m) :: post)
  by_cases hc : info.critical
  · refine ⟨?_, ?_, ?_⟩
    · rw [if_pos hc, h₁, hsplit]
      exact hmono.1 _ (by simp [hstMid, stepCheck, hc])
    · rw [h₃, hsplit]
      exact hmono.2.2.1 _ (by simp [hstMid, stepCheck, hc])
    · rw [h₄, hsplit]
      exact hmono.2.2.2 _ (by simp [hstMid, stepCheck, hc])
  · refine ⟨?_, ?_, ?_⟩
    · rw [if_neg hc, h₂, hsplit]
      exact hmono.2.1 _ (by simp [hstMid, stepCheck, hc])
    · rw [h₃, hsplit]
      exact hmono.2.2.1 _ (by simp [hstMid, stepCheck, hc])
    · rw [h₄, hsplit]
      exact hmono.2.2.2 _ (by simp [hstMid, stepCheck, hc])

/-- C8 counterexample.  A critical probe that raises an exception with text
`"boom"` is recorded with the failure message `"Health check error: boom"`,
which is not the exception message itself: the claim that the exception
message is used as the failure message fails on this input (the rest of the
treatment — counting and routing — does match an explicit FAIL). -/
theorem run_health_checks_exception_message_not_bare :
    (run_health_checks [(⟨"database", true, 0⟩, ProbeOutcome.exn "boom")]).critical_failures =
        [⟨"database", "Health check error: boom", 1⟩] ∧
      "Health check error: boom" ≠ "boom" := by
  exact ⟨rfl, by decide⟩

/-! ## Default health probes (AutoRecoverySystem._setup_default_health_checks) -/

/-- Default probe `check_disk_space` (lines 488-495), modelled over `ℚ`
(psutil reports a float percentage; the probe only compares it against the
integer thresholds 95 and 85 and embeds it in the message). -/
def check_disk_space (percent : ℚ) : String × String :=
  if percent > 95 then ("FAIL", "Disk usage critical: " ++ toString percent ++ "%")
  else if percent > 85 then ("WARN", "Disk usage high: " ++ toString percent ++ "%")
  else ("PASS", "Disk usage normal: " ++ toString percent ++ "%")

/-- Registry produced by the four `register_health_check` calls at lines
534-537: every default probe is registered with `critical=True`, and
`register_health_check` initialises `failure_count` to 0. -/
def defaultHealthChecks : List CheckInfo :=
  [⟨"disk_space", true, 0⟩, ⟨"memory_usage", true, 0⟩,
   ⟨"critical_files", true, 0⟩, ⟨"database", true, 0⟩]

/-- Monitoring pass over the default registry in which the disk probe
reports 90% usage (a WARN result per `check_disk_space`) and every other
default probe passes. -/
def defaultPassWithDiskWarn : List (CheckInfo × ProbeOutcome) :=
  [(⟨"disk_space", true, 0⟩,
      ProbeOutcome.ret (check_disk_space 90).1 (some (check_disk_space 90).2)),
   (⟨"memory_usage", true, 0⟩, ProbeOutcome.ret "PASS" (some "Memory usage normal: 40%")),
   (⟨"critical_files", true, 0⟩, ProbeOutcome.ret "PASS" (some "All critical files present")),
   (⟨"database", true, 0⟩, ProbeOutcome.ret "PASS" (some "Database healthy: 5 tables"))]

/-- C10.  `run_health_checks` treats any returned status other than the
exact string `PASS` — in particular `WARN` — as a failure: the probe's
failure counter is incremented and, for a critical probe, the record lands
in `critical_failures`; all four default probes are registered critical, so
a single default probe returning WARN (disk usage 90%, between 85% and 95%)
makes the overall verdict CRITICAL rather than WARNING. -/
theorem run_health_checks_nonpass_is_failure :
    defaultHealthChecks.all (fun c => c.critical) = true ∧
    (∀ (pre post : List (CheckInfo × ProbeOutcome)) (info : CheckInfo)
        (s : String) (msg : Option String), s ≠ "PASS" → info.critical = true →
        (⟨info.name, msg.getD "Critical check failed", info.failure_count + 1⟩ :
            FailureRecord) ∈
          (run_health_checks (pre ++ (info, ProbeOutcome.ret s msg) :: post)).critical_failures ∧
        ({ info with failure_count := info.failure_count + 1 } : CheckInfo) ∈
          (run_health_checks (pre ++ (info, ProbeOutcome.ret s msg) :: post)).infos) ∧
    (check_disk_space 90).1 = "WARN" ∧
    defaultPassWithDiskWarn.map Prod.fst = defaultHealthChecks ∧
    (run_health_checks defaultPassWithDiskWarn).overall_health = "CRITICAL" := by
  refine ⟨by decide, ?_, by decide, by decide, by decide⟩
  intro pre post info s msg hs hc
  have hsplit : processChecks initMonState (pre ++ (info, ProbeOutcome.ret s msg) :: post) =
      processChecks (stepCheck (processChecks initMonState pre)
        (info, ProbeOutcome.ret s msg)) post := by
    rw [processChecks_append]; rfl
  set stPre := processChecks initMonState pre with hstPre
  set stMid := stepCheck stPre (info, ProbeOutcome.ret s msg) with hstMid
  have hmono := processChecks_mem_mono stMid post
  have h₁ : (run_health_checks (pre ++ (info, ProbeOutcome.ret s msg) :: post)).critical_failures
      = (processChecks initMonState (pre ++ (info, ProbeOutcome.ret s msg) :: post)).critical_failures := rfl
  have h₄ : (run_health_checks (pre ++ (info, ProbeOutcome.ret s msg) :: post)).infos
      = (processChecks initMonState (pre ++ (info, ProbeOutcome.ret s msg) :: post)).infos := rfl
  constructor
  · rw [h₁, hsplit]
    exact hmono.1 _ (by simp [hstMid, stepCheck, hs, hc])
  · rw [h₄, hsplit]
    exact hmono.2.2.2 _ (by simp [hstMid, stepCheck, hs, hc])

/-- Witness for C10 at a concrete input: a single critical probe named
`disk_space` returning status `WARN` is routed into `critical_failures`. -/
theorem run_health_checks_nonpass_is_failure_witness :
    (⟨"disk_space", "Disk usage high: 90%", 1⟩ : FailureRecord) ∈
      (run_health_checks [(⟨"disk_space", true, 0⟩,
        ProbeOutcome.ret "WARN" (some "Disk usage high: 90%"))]).critical_failures :=
  (run_health_checks_nonpass_is_failure.2.1 [] [] ⟨"disk_space", true, 0⟩ "WARN"
    (some "Disk usage high: 90%") (by decide) rfl).1

/-! ## Failure classifier (AutoRecoverySystem._classify_failure) -/

/-- Lowercasing of a Python string (`str.lower()`), modelled per character
with `Char.toLower`; the classifier only meets ASCII text. -/
def strLower (s : String) : List Char := s.data.map Char.toLower

/-- Test whether a list of characters begins with the given pattern. -/
def startsWithChars : List Char → List Char → Bool
  | [], _ => true
  | _ :: _, [] => false
  | a :: as, b :: bs => a == b && startsWithChars as bs

/-- Python's substring containment `tok in s`, on lists of characters. -/
def containsChars (tok : List Char) : List Char → Bool
  | [] => startsWithChars tok []
  | c :: cs => startsWithChars tok (c :: cs) || containsChars tok cs

/-- `AutoRecoverySystem._classify_failure` (lines 668-680): the probe name
and message of a failure record are lowercased and substring-matched in the
fixed order disk → memory → file/missing/corruption → unknown; the first
matching branch returns.  The returned strings are the keys of the
`recovery_plans` catalog and stand for the spec's DISK_SPACE_CRITICAL,
MEMORY_CRITICAL, FILE_CORRUPTION and UNKNOWN_FAILURE categories. -/
def classify_failure (check : String) (message : String) : String :=
  let check_name := strLower check
  let msg := strLower message
  if containsChars "disk".data check_name || containsChars "disk".data msg then
    "disk_space_critical"
  else if containsChars "memory".data check_name || containsChars "memory".data msg then
    "memory_critical"
  else if containsChars "file".data check_name || containsChars "missing".data msg
      || containsChars "corruption".data msg then
    "file_corruption"
  else "unknown_failure"

/-- C6.  `classify_failure` is a pure function of the failure record's probe
name and message, case-insensitively substring-matched first-match-wins in
the order disk → memory → file/missing/corruption → unknown; the message
"Disk usage critical: 97%" classifies as disk_space_critical, the message
"Critical files missing: [...]" as file_corruption, and an unrelated message
as unknown_failure. -/
theorem classify_failure_first_match_order (check message : String) :
    ((containsChars "disk".data (strLower check)
        || containsChars "disk".data (strLower message)) = true →
      classify_failure check message = "disk_space_critical") ∧
    ((containsChars "disk".data (strLower check)
        || containsChars "disk".data (strLower message)) = false →
      (containsChars "memory".data (strLower check)
        || containsChars "memory".data (strLower message)) = true →
      classify_failure check message = "memory_critical") ∧
    ((containsChars "disk".data (strLower check)
        || containsChars "disk".data (strLower message)) = false →
      (containsChars "memory".data (strLower check)
        || containsChars "memory".data (strLower message)) = false →
      (containsChars "file".data (strLower check)
        || containsChars "missing".data (strLower message)
        || containsChars "corruption".data (strLower message)) = true →
      classify_failure check message = "file_corruption") ∧
    ((containsChars "disk".data (strLower check)
        || containsChars "disk".data (strLower message)) = false →
      (containsChars "memory".data (strLower check)
        || containsChars "memory".data (strLower message)) = false →
      (containsChars "file".data (strLower check)
        || containsChars "missing".data (strLower message)
        || containsChars "corruption".data (strLower message)) = false →
      classify_failure check message = "unknown_failure") ∧
    classify_failure "disk_space" "Disk usage critical: 97%" = "disk_space_critical" ∧
    classify_failure "critical_files"
      "Critical files missing: ['/workspace/prometheus_core.py']" = "file_corruption" ∧
    classify_failure "database" "Database error: unable to open" = "unknown_failure" := by
  refine ⟨?_, ?_, ?_, ?_, by decide, by decide, by decide⟩
  · intro h; simp [classify_failure, h]
  · intro h₁ h₂; simp [classify_failure, h₁, h₂]
  · intro h₁ h₂ h₃; simp [classify_failure, h₁, h₂, h₃]
  · intro h₁ h₂ h₃; simp [classify_failure, h₁, h₂, h₃]

/-- Witness for C6 at concrete inputs: the disk branch fires on the message
"Disk usage critical: 97%" even though the memory/file tokens are absent,
and the file branch fires on "Critical files missing" once disk and memory
tokens are ruled out. -/
theorem classify_failure_first_match_order_witness :
    classify_failure "disk_space" "Disk usage critical: 97%" = "disk_space_critical" ∧
    classify_failure "" "Critical files missing: []" = "file_corruption" :=
  ⟨(classify_failure_first_match_order "disk_space" "Disk usage critical: 97%").1 (by decide),
   (classify_failure_first_match_order "" "Critical files missing: []").2.2.1
     (by decide) (by decide) (by decide)⟩

/-! ## Recovery plan execution (AutoRecoverySystem._execute_recovery_plan) -/

/-- One remediation step of a recovery plan (`{'action': ..,
'description': ..}`). -/
structure RecoveryStep where
  action : String
  description : String
deriving DecidableEq, Repr

/-- Recovery plan record (dataclass `RecoveryPlan`, lines 36-44);
`success_probability` is modelled over `ℚ` (informational only). -/
structure RecoveryPlan where
  plan_id : String
  failure_type : String
  recovery_steps : List RecoveryStep
  estimated_time : Nat
  success_probability : ℚ
  rollback_available : Bool
deriving DecidableEq, Repr

/-- Step loop of `AutoRecoverySystem._execute_recovery_plan` (lines 682-706)
over the given action handler (`_execute_recovery_action`, which itself
catches exceptions and returns False): steps run in listed order; the first
handler failure returns False immediately, skipping the rest; if all steps
succeed the loop returns True.  The result carries the success flag together
with the ordered trace of actions actually dispatched.  The `time.sleep(2)`
pause between steps has no observable effect in the model. -/
def execSteps (handler : String → Bool) : List RecoveryStep → Bool × List String
  | [] => (true, [])
  | s :: rest =>
      if handler s.action then
        ((execSteps handler rest).1, s.action :: (execSteps handler rest).2)
      else (false, [s.action])

/-- `AutoRecoverySystem._execute_recovery_plan` applied to a plan: the loop
runs over `plan.recovery_steps`. -/
def execute_recovery_plan (handler : String → Bool) (plan : RecoveryPlan) :
    Bool × List String :=
  execSteps handler plan.recovery_steps

/-- C4.  `execute_recovery_plan` executes the steps strictly in their listed
order; if it reports success every step was dispatched in order and
succeeded, and if it reports failure the plan decomposes as a succeeding
leading segment, a first failing step at which execution stops, and a
remainder that is never dispatched; in particular a plan `[A, B, C]` whose
handler passes A and fails B executes A, attempts B and never executes C,
returning failure. -/
theorem execute_recovery_plan_order_and_abort (handler : String → Bool) :
    (∀ steps : List RecoveryStep,
      ((execSteps handler steps).1 = true →
        (execSteps handler steps).2 = steps.map (fun s => s.action) ∧
          ∀ s ∈ steps, handler s.action = true) ∧
      ((execSteps handler steps).1 = false →
        ∃ pre s post, steps = pre ++ s :: post ∧
          (∀ p ∈ pre, handler p.action = true) ∧ handler s.action = false ∧
          (execSteps handler steps).2 = pre.map (fun p => p.action) ++ [s.action])) ∧
    (∀ (pid ft : String) (et : Nat) (sp : ℚ) (rb : Bool) (A B C : RecoveryStep),
      handler A.action = true → handler B.action = false →
      execute_recovery_plan handler ⟨pid, ft, [A, B, C], et, sp, rb⟩ =
        (false, [A.action, B.action])) := by
  constructor
  · intro steps
    induction steps with
    | nil =>
        exact ⟨fun _ => ⟨rfl, by simp⟩, fun h => by simp [execSteps] at h⟩
    | cons s rest ih =>
        by_cases hh : handler s.action
        · constructor
          · intro hok
            have hrest : (execSteps handler rest).1 = true := by
              simpa [execSteps, hh] using hok
            obtain ⟨htr, hall⟩ := ih.1 hrest
            refine ⟨by simp [execSteps, hh, htr], ?_⟩
            intro p hp
            rcases List.mem_cons.mp hp with h | h
            · simpa [h] using hh
            · exact hall p h
          · intro hbad
            have hrest : (execSteps handler rest).1 = false := by
              simpa [execSteps, hh] using hbad
            obtain ⟨pre, t, post, hdec, hpre, ht, htr⟩ := ih.2 hrest
            refine ⟨s :: pre, t, post, by simp [hdec], ?_, ht,
              by simp [execSteps, hh, htr]⟩
            intro p hp
            rcases List.mem_cons.mp hp with h | h
            · simpa [h] using hh
            · exact hpre p h
        · constructor
          · intro hok
            simp [execSteps, hh] at hok
          · intro _
            exact ⟨[], s, rest, by simp, by simp, by simpa using hh,
              by simp [execSteps, hh]⟩
  · intro pid ft et sp rb A B C hA hB
    simp [execute_recovery_plan, execSteps, hA, hB]

/-- Witness for C4 at a concrete input: a three-step plan whose second
action fails dispatches exactly the first two actions and reports failure. -/
theorem execute_recovery_plan_order_and_abort_witness :
    execute_recovery_plan (fun a => a == "ok")
        ⟨"file_restore", "FILE_CORRUPTION",
          [⟨"ok", "first step"⟩, ⟨"bad", "second step"⟩, ⟨"ok", "third step"⟩],
          600, 9/10, true⟩ =
      (false, ["ok", "bad"]) :=
  (execute_recovery_plan_order_and_abort (fun a => a == "ok")).2 "file_restore"
    "FILE_CORRUPTION" 600 (9/10) true ⟨"ok", "first step"⟩ ⟨"bad", "second step"⟩
    ⟨"ok", "third step"⟩ (by decide) (by decide)

/-! ## JSON fragment (Python `json` module as used by the checkpoint store)

The checkpoint store reads the live configuration with `json.load` and
rewrites it with `json.dump(..., indent=2)`.  The model covers the JSON
fragment these calls meet in this system: objects, arrays, strings, integer
numerals, booleans and null.  Fractional/exponent numerals and characters
outside the basic multilingual plane are outside the modelled fragment (the
parser rejects them), matching Python on every input used in a theorem. -/

/-- JSON value (Python object produced by `json.load`). -/
inductive Json where
  | null
  | bool (b : Bool)
  | num (n : Int)
  | str (s : String)
  | arr (items : List Json)
  | obj (members : List (String × Json))

/-- Indentation padding: `n` spaces. -/
def padChars (n : Nat) : List Char := List.replicate n ' '

/-- Lowercase hexadecimal digit, as Python emits in `\uXXXX` escapes. -/
def hexDigitChar (n : Nat) : Char :=
  if n < 10 then Char.ofNat (48 + n) else Char.ofNat (87 + n)

/-- Escaping of one character inside a JSON string, following Python's
`json.dump` default (`ensure_ascii=True`): the two-character escapes for
quote, backslash and the control characters with short names, and `\uXXXX`
for remaining control or non-ASCII characters. -/
def escapeChar (c : Char) : List Char :=
  if c = '"' then ['\\', '"']
  else if c = '\\' then ['\\', '\\']
  else if c = '\n' then ['\\', 'n']
  else if c = '\t' then ['\\', 't']
  else if c = '\r' then ['\\', 'r']
  else if c = Char.ofNat 8 then ['\\', 'b']
  else if c = Char.ofNat 12 then ['\\', 'f']
  else if c.toNat < 32 || 127 ≤ c.toNat then
    ['\\', 'u', hexDigitChar ((c.toNat / 4096) % 16), hexDigitChar ((c.toNat / 256) % 16),
      hexDigitChar ((c.toNat / 16) % 16), hexDigitChar (c.toNat % 16)]
  else [c]

/-- Quoted and escaped JSON string literal. -/
def quoteString (s : String) : List Char :=
  '"' :: (s.data.map escapeChar).flatten ++ ['"']

mutual

/-- Serialization of a JSON value as Python's `json.dump(v, f, indent=2)`
renders it at the given current indentation: empty containers render as
`{}`/`[]`; nonempty containers open a line, indent members by two more
spaces, separate them with `",\n"`, and close at the current indentation;
the key separator is `": "`. -/
def dumpJson (ind : Nat) : Json → List Char
  | .null => "null".data
  | .bool true => "true".data
  | .bool false => "false".data
  | .num n => (toString n).data
  | .str s => quoteString s
  | .arr items =>
      if items.isEmpty then "[]".data
      else '[' :: '\n' :: dumpArr (ind + 2) items ++ '\n' :: padChars ind ++ [']']
  | .obj members =>
      if members.isEmpty then "{}".data
      else '{' :: '\n' :: dumpObj (ind + 2) members ++ '\n' :: padChars ind ++ ['}']

/-- Array items of `dumpJson`, one per line at the given indentation. -/
def dumpArr (ind : Nat) : List Json → List Char
  | [] => []
  | [x] => padChars ind ++ dumpJson ind x
  | x :: y :: rest =>
      padChars ind ++ dumpJson ind x ++ ',' :: '\n' :: dumpArr ind (y :: rest)

/-- Object members of `dumpJson`, one per line at the given indentation. -/
def dumpObj (ind : Nat) : List (String × Json) → List Char
  | [] => []
  | [(k, v)] => padChars ind ++ quoteString k ++ ':' :: ' ' :: dumpJson ind v
  | (k, v) :: m :: rest =>
      padChars ind ++ quoteString k ++ ':' :: ' ' :: dumpJson ind v ++
        ',' :: '\n' :: dumpObj ind (m :: rest)

end

/-- Python `json.dump(v, f, indent=2)`: the full file content written for a
value at top level. -/
def json_dumps_indent2 (v : Json) : String := String.mk (dumpJson 0 v)

/-- JSON whitespace accepted between tokens (Python `json` skips exactly
space, tab, newline and carriage return). -/
def isJsonWs (c : Char) : Bool := c == ' ' || c == '\t' || c == '\n' || c == '\r'

/-- Drop leading JSON whitespace. -/
def skipWs : List Char → List Char
  | [] => []
  | c :: cs => if isJsonWs c then skipWs cs else c :: cs

/-- Value of a hexadecimal digit, if any. -/
def hexVal (c : Char) : Option Nat :=
  if 48 ≤ c.toNat ∧ c.toNat ≤ 57 then some (c.toNat - 48)
  else if 97 ≤ c.toNat ∧ c.toNat ≤ 102 then some (c.toNat - 87)
  else if 65 ≤ c.toNat ∧ c.toNat ≤ 70 then some (c.toNat - 55)
  else none

/-- Body of a JSON string after the opening quote: the decoded characters
and the input remaining after the closing quote.  Handles the short escapes
and `\uXXXX`; raw control characters are rejected as in Python's strict
mode. -/
def parseStringBody : List Char → Option (List Char × List Char)
  | [] => none
  | c :: rest =>
      if c == '"' then some ([], rest)
      else if c == '\\' then
        match rest with
        | [] => none
        | e :: rest1 =>
            if e == '"' then (parseStringBody rest1).map (fun r => ('"' :: r.1, r.2))
            else if e == '\\' then (parseStringBody rest1).map (fun r => ('\\' :: r.1, r.2))
            else if e == '/' then (parseStringBody rest1).map (fun r => ('/' :: r.1, r.2))
            else if e == 'n' then (parseStringBody rest1).map (fun r => ('\n' :: r.1, r.2))
            else if e == 't' then (parseStringBody rest1).map (fun r => ('\t' :: r.1, r.2))
            else if e == 'r' then (parseStringBody rest1).map (fun r => ('\r' :: r.1, r.2))
            else if e == 'b' then
              (parseStringBody rest1).map (fun r => (Char.ofNat 8 :: r.1, r.2))
            else if e == 'f' then
              (parseStringBody rest1).map (fun r => (Char.ofNat 12 :: r.1, r.2))
            else if e == 'u' then
              match rest1 with
              | a :: b :: c' :: d :: rest2 =>
                  match hexVal a, hexVal b, hexVal c', hexVal d with
                  | some x1, some x2, some x3, some x4 =>
                      (parseStringBody rest2).map
                        (fun r => (Char.ofNat (4096 * x1 + 256 * x2 + 16 * x3 + x4) :: r.1, r.2))
                  | _, _, _, _ => none
              | _ => none
            else none
      else if c.toNat < 32 then none
      else (parseStringBody rest).map (fun r => (c :: r.1, r.2))

/-- Decimal digits to the number they denote. -/
def digitsToNat (ds : List Char) : Nat := ds.foldl (fun a c => a * 10 + (c.toNat - 48)) 0

/-- Integer numeral at the head of the input.  A following `.`, `e` or `E`
would start a float, which is outside the modelled fragment. -/
def parseNumber (s : List Char) : Option (Json × List Char) :=
  let p := match s with
           | '-' :: rest => (true, rest)
           | _ => (false, s)
  let ds := p.2.takeWhile (fun c => c.isDigit)
  let rest := p.2.dropWhile (fun c => c.isDigit)
  if ds.isEmpty then none
  else match rest with
       | '.' :: _ => none
       | 'e' :: _ => none
       | 'E' :: _ => none
       | _ => some (.num (if p.1 then -(digitsToNat ds : Int) else (digitsToNat ds : Int)), rest)

mutual

/-- JSON value at the head of the input (Python `json.loads` grammar on the
modelled fragment), returning the value and the remaining input.  The fuel
argument dominates the recursion depth; `json_loads` supplies enough fuel
for any input of the given length. -/
def parseJsonVal : Nat → List Char → Option (Json × List Char)
  | 0, _ => none
  | fuel + 1, s =>
      match skipWs s with
      | '{' :: rest =>
          (match skipWs rest with
           | '}' :: rest2 => some (.obj [], rest2)
           | rest2 => (parseJsonMembers fuel rest2).map (fun r => (Json.obj r.1, r.2)))
      | '[' :: rest =>
          (match skipWs rest with
           | ']' :: rest2 => some (.arr [], rest2)
           | rest2 => (parseJsonItems fuel rest2).map (fun r => (Json.arr r.1, r.2)))
      | '"' :: rest => (parseStringBody rest).map (fun r => (Json.str (String.mk r.1), r.2))
      | 't' :: 'r' :: 'u' :: 'e' :: rest => some (.bool true, rest)
      | 'f' :: 'a' :: 'l' :: 's' :: 'e' :: rest => some (.bool false, rest)
      | 'n' :: 'u' :: 'l' :: 'l' :: rest => some (.null, rest)
      | s' => parseNumber s'

/-- Members of a nonempty JSON object, positioned after `{` and leading
whitespace, through the closing `}`. -/
def parseJsonMembers : Nat → List Char → Option (List (String × Json) × List Char)
  | 0, _ => none
  | fuel + 1, s =>
      match skipWs s with
      | '"' :: rest =>
          (match parseStringBody rest with
           | none => none
           | some (key, rest2) =>
               match skipWs rest2 with
               | ':' :: rest3 =>
                   (match parseJsonVal fuel rest3 with
                    | none => none
                    | some (v, rest4) =>
                        match skipWs rest4 with
                        | ',' :: rest5 =>
                            (parseJsonMembers fuel rest5).map
                              (fun r => ((String.mk key, v) :: r.1, r.2))
                        | '}' :: rest5 => some ([(String.mk key, v)], rest5)
                        | _ => none)
               | _ => none)
      | _ => none

/-- Items of a nonempty JSON array, positioned after `[` and leading
whitespace, through the closing `]`. -/
def parseJsonItems : Nat → List Char → Option (List Json × List Char)
  | 0, _ => none
  | fuel + 1, s =>
      match parseJsonVal fuel s with
      | none => none
      | some (v, rest) =>
          match skipWs rest with
          | ',' :: rest2 => (parseJsonItems fuel rest2).map (fun r => (v :: r.1, r.2))
          | ']' :: rest2 => some ([v], rest2)
          | _ => none

end

/-- Python `json.loads`/`json.load` on the modelled fragment: parse one
value, then require only whitespace to remain (Python raises on trailing
data). -/
def json_loads (s : String) : Option Json :=
  match parseJsonVal (2 * s.data.length + 8) s.data with
  | some (v, rest) => if (skipWs rest).isEmpty then some v else none
  | none => none

/-! ## Checkpoint store (class BackupManager)

The filesystem surface touched by `BackupManager` is modelled explicitly:
the live configuration file `/workspace/prometheus_config.json`, the live
database file, the live log directory (its archived content is carried
opaquely as a string), and the backup directory
`/workspace/prometheus_backups`.  Files inside the backup directory are
identified by file name; the full path `self.backup_dir / name` stored in
checkpoint fields is identified with `name`.  The fields `system_state`,
`module_states` and `file_hashes` of the source dataclass record host facts
(interpreter/environment data and hashes of files outside this filesystem
surface); they feed only log output and the informational integrity report
of a restore, never a claim, and are not carried by the model. -/

/-- Checkpoint record (dataclass `SystemCheckpoint`, lines 23-33, restricted
to the fields the claims observe): id, creation time, the configuration
value captured by `json.load`, and the paths of the two sibling artifacts
("" when the artifact was not produced). -/
structure Checkpoint where
  checkpoint_id : String
  timestamp : Nat
  configuration : Json
  database_backup : String
  logs_backup : String

/-- Content of one file in the backup directory: a pickled checkpoint record
or plain file data (a database copy or a compressed log archive). -/
inductive BContent where
  | record (cp : Checkpoint)
  | fileData (data : String)

/-- One file in the backup directory: name, modification time and content. -/
structure BFile where
  name : String
  mtime : Nat
  content : BContent

/-- State of the filesystem surface the checkpoint store touches, plus the
current wall-clock second `now` (`int(time.time())`). -/
structure SysState where
  now : Nat
  configContent : Option String
  dbContent : Option String
  logsContent : Option String
  backupFiles : List BFile

/-- Success or failure of the fallible I/O operations one
`create_system_checkpoint` call performs: the `shutil.copy2` of the
database, the `shutil.make_archive` of the logs, and the pickle write of the
checkpoint record itself. -/
structure IOBehavior where
  dbCopyOk : Bool
  logArchiveOk : Bool
  recordWriteOk : Bool

/-- All I/O succeeds. -/
def allIOOk : IOBehavior := ⟨true, true, true⟩

/-- `BackupManager._backup_database` (lines 412-422): if the live database
exists, copy it to `{checkpoint_id}_database.db` and return that path; if it
does not exist, or the copy raises, return "" — the `except Exception: pass`
swallows every error, and a failed copy leaves no target file. -/
def backup_database (io : IOBehavior) (st : SysState) (checkpoint_id : String) :
    String × SysState :=
  match st.dbContent with
  | some db =>
      if io.dbCopyOk then
        (checkpoint_id ++ "_database.db",
          { st with backupFiles := st.backupFiles ++
              [⟨checkpoint_id ++ "_database.db", st.now, .fileData db⟩] })
      else ("", st)
  | none => ("", st)

/-- `BackupManager._backup_logs` (lines 424-434): if the live log directory
exists, archive it to `{checkpoint_id}_logs.tar.gz` and return that path;
otherwise, or when the archive write raises, return "" (errors swallowed as
in `_backup_database`). -/
def backup_logs (io : IOBehavior) (st : SysState) (checkpoint_id : String) :
    String × SysState :=
  match st.logsContent with
  | some lg =>
      if io.logArchiveOk then
        (checkpoint_id ++ "_logs.tar.gz",
          { st with backupFiles := st.backupFiles ++
              [⟨checkpoint_id ++ "_logs.tar.gz", st.now, .fileData lg⟩] })
      else ("", st)
  | none => ("", st)

/-- Retention bound `self.max_backups` (line 230). -/
def max_backups : Nat := 10

/-- Reversal-based suffix test for the `glob("*.checkpoint")` name filter. -/
def endsWithChars (suffix s : List Char) : Bool :=
  startsWithChars suffix.reverse s.reverse

/-- Membership in `backup_dir.glob("*.checkpoint")`. -/
def isCheckpointFile (f : BFile) : Bool := endsWithChars ".checkpoint".data f.name.data

/-- `Path.stem` of a `*.checkpoint` file name: the name with the final
`.checkpoint` extension removed. -/
def checkpointStem (name : String) : String :=
  String.mk (name.data.take (name.data.length - ".checkpoint".data.length))

/-- Stable insertion into a list sorted by modification time, newest first:
the inserted file goes before the first file that is not strictly newer, so
equal times keep their original relative order, as Python's stable
`list.sort(key=..., reverse=True)` does. -/
def insertByMtimeDesc (f : BFile) : List BFile → List BFile
  | [] => [f]
  | g :: gs => if f.mtime ≥ g.mtime then f :: g :: gs else g :: insertByMtimeDesc f gs

/-- Sorting by modification time, newest first (stable). -/
def sortByMtimeDesc : List BFile → List BFile
  | [] => []
  | f :: fs => insertByMtimeDesc f (sortByMtimeDesc fs)

/-- Whether a file is removed by the deletion loop of
`_cleanup_old_backups` over the given over-retention checkpoints: it is one
of them, or its name matches the sibling glob `f"{checkpoint_id}_*"` of one
of them. -/
def matchesDeleted (toDelete : List BFile) (f : BFile) : Bool :=
  toDelete.any (fun d => f.name == d.name
    || startsWithChars (checkpointStem d.name ++ "_").data f.name.data)

/-- `BackupManager._cleanup_old_backups` (lines 450-469): list the
`*.checkpoint` files, sort newest first, and for every file beyond
`max_backups` delete it and every sibling named `{stem}_*`.  The per-file
`unlink` loop is expressed as one filter; the deleted name sets of the loop
iterations are disjoint, so the net effect is the same. -/
def cleanup_old_backups (st : SysState) : SysState :=
  let checkpoint_files := st.backupFiles.filter isCheckpointFile
  let toDelete := (sortByMtimeDesc checkpoint_files).drop max_backups
  { st with backupFiles := st.backupFiles.filter (fun f => !(matchesDeleted toDelete f)) }

/-- Configuration capture of `create_system_checkpoint` (lines 244-249): an
absent file yields the empty dict; an existing file is parsed with
`json.load`, whose parse error would propagate out of the method (re-raised
by the `except` at line 284). -/
def loadConfiguration (configContent : Option String) : Except String Json :=
  match configContent with
  | none => .ok (Json.obj [])
  | some s =>
      match json_loads s with
      | some v => .ok v
      | none => .error "configuration is not valid JSON"

/-- Artifact-producing tail of `create_system_checkpoint` once the
configuration value is in hand: back up the database, back up the logs,
assemble the checkpoint record and append its pickled file to the backup
directory. -/
def create_with_config (io : IOBehavior) (st : SysState) (checkpoint_id : String)
    (configuration : Json) : Checkpoint × SysState :=
  let r₁ := backup_database io st checkpoint_id
  let r₂ := backup_logs io r₁.2 checkpoint_id
  let cp : Checkpoint := ⟨checkpoint_id, st.now, configuration, r₁.1, r₂.1⟩
  (cp, { r₂.2 with backupFiles := r₂.2.backupFiles ++
      [⟨checkpoint_id ++ ".checkpoint", st.now, .record cp⟩] })

/-- `BackupManager.create_system_checkpoint` (lines 232-287): derive the id
from the current time, capture the configuration, produce the sub-artifacts
(their failures are swallowed by the helpers), write the checkpoint record,
run retention pruning, and return the checkpoint.  An error parsing the
configuration or writing the record propagates to the caller (the `except`
at line 284 logs and re-raises); the model's error result does not carry the
partial filesystem state, which no claim observes. -/
def create_system_checkpoint (io : IOBehavior) (st : SysState) :
    Except String (Checkpoint × SysState) :=
  let checkpoint_id := "checkpoint_" ++ toString st.now
  match loadConfiguration st.configContent with
  | .error e => .error e
  | .ok configuration =>
      if io.recordWriteOk then
        let r := create_with_config io st checkpoint_id configuration
        .ok (r.1, cleanup_old_backups r.2)
      else .error "checkpoint record could not be written"

/-- First file with the given name in the backup directory
(`os.path.exists` plus read). -/
def findBackupFile (files : List BFile) (name : String) : Option BFile :=
  files.find? (fun f => f.name == name)

/-- State changes of a successful restore body (lines 303-318): overwrite
the live configuration with the checkpoint's configuration serialized at
`indent=2`; if the checkpoint names a database backup that still exists,
copy it over the live database; if it names a log archive that still
exists, replace the live log directory with its content.  The integrity
verification that follows (lines 320-327) only logs discrepancies and
cannot change the outcome, so it is not carried by the model. -/
def applyRestore (st : SysState) (cp : Checkpoint) : SysState :=
  let st₁ := { st with configContent := some (json_dumps_indent2 cp.configuration) }
  let st₂ :=
    if cp.database_backup ≠ "" then
      match findBackupFile st₁.backupFiles cp.database_backup with
      | some g =>
          match g.content with
          | .fileData db => { st₁ with dbContent := some db }
          | .record _ => st₁
      | none => st₁
    else st₁
  if cp.logs_backup ≠ "" then
    match findBackupFile st₂.backupFiles cp.logs_backup with
    | some g =>
        match g.content with
        | .fileData lg => { st₂ with logsContent := some lg }
        | .record _ => st₂
    | none => st₂
  else st₂

/-- `BackupManager.restore_from_checkpoint` (lines 289-337).  The whole body
sits in a `try` whose blanket `except Exception` logs and returns `False`,
so no exception reaches the caller — in particular the `FileNotFoundError`
raised at line 294 for an unknown id is caught at line 334; the `Except`
result type records that every branch returns normally.  A checkpoint file
that does not unpickle to a record likewise yields `False`. -/
def restore_from_checkpoint (st : SysState) (checkpoint_id : String) :
    Except String (Bool × SysState) :=
  match findBackupFile st.backupFiles (checkpoint_id ++ ".checkpoint") with
  | none => .ok (false, st)
  | some f =>
      match f.content with
      | .record cp => .ok (true, applyRestore st cp)
      | .fileData _ => .ok (false, st)

lemma backup_database_fst_empty (io : IOBehavior) (st : SysState) (cid : String)
    (h : io.dbCopyOk = false ∨ st.dbContent = none) :
    (backup_database io st cid).1 = "" := by
  cases hdb : st.dbContent with
  | none => simp [backup_database, hdb]
  | some db =>
      rcases h with h | h
      · simp [backup_database, hdb, h]
      · rw [hdb] at h; exact absurd h (by simp)

lemma backup_logs_fst_empty (io : IOBehavior) (st : SysState) (cid : String)
    (h : io.logArchiveOk = false ∨ st.logsContent = none) :
    (backup_logs io st cid).1 = "" := by
  cases hlg : st.logsContent with
  | none => simp [backup_logs, hlg]
  | some lg =>
      rcases h with h | h
      · simp [backup_logs, hlg, h]
      · rw [hlg] at h; exact absurd h (by simp)

lemma backup_database_snd_logsContent (io : IOBehavior) (st : SysState) (cid : String) :
    (backup_database io st cid).2.logsContent = st.logsContent := by
  cases hdb : st.dbContent <;> cases hio : io.dbCopyOk <;>
    simp [backup_database, hdb, hio]

lemma create_system_checkpoint_ok_of_load (io : IOBehavior) (st : SysState) (v : Json)
    (cid : String)
    (hload : loadConfiguration st.configContent = Except.ok v)
    (hw : io.recordWriteOk = true)
    (hid : "checkpoint_" ++ toString st.now = cid) :
    create_system_checkpoint io st =
      Except.ok ((create_with_config io st cid v).1,
        cleanup_old_backups (create_with_config io st cid v).2) := by
  subst hid
  simp only [create_system_checkpoint, hload, hw, if_true]

/-- C2 (amended).  Failure to write a sub-artifact does not make
`create_system_checkpoint` fail: the exceptions of the database copy and of
the log-archive write are swallowed inside `_backup_database`/`_backup_logs`
and an empty path is recorded for the missing artifact, after which creation
proceeds and returns the checkpoint normally; an error aborts creation only
when the checkpoint record itself cannot be written, or the live
configuration fails to parse. -/
theorem create_checkpoint_subartifact_failure_swallowed
    (io : IOBehavior) (st : SysState) (s : String) (v : Json)
    (hcfg : st.configContent = some s) (hparse : json_loads s = some v)
    (hw : io.recordWriteOk = true) :
    ∃ cp st', create_system_checkpoint io st = Except.ok (cp, st') ∧
      cp.configuration = v ∧
      ((io.dbCopyOk = false ∨ st.dbContent = none) → cp.database_backup = "") ∧
      ((io.logArchiveOk = false ∨ st.logsContent = none) → cp.logs_backup = "") := by
  have hload : loadConfiguration st.configContent = Except.ok v := by
    simp [loadConfiguration, hcfg, hparse]
  refine ⟨(create_with_config io st ("checkpoint_" ++ toString st.now) v).1,
    cleanup_old_backups (create_with_config io st ("checkpoint_" ++ toString st.now) v).2,
    create_system_checkpoint_ok_of_load io st v _ hload hw rfl, rfl, ?_, ?_⟩
  · intro h
    exact backup_database_fst_empty io st _ h
  · intro h
    refine backup_logs_fst_empty io _ _ ?_
    rcases h with h | h
    · exact Or.inl h
    · exact Or.inr (by rw [backup_database_snd_logsContent, h])

/-- Witness for C2 (amended) at a concrete input: with both sub-artifact
writes failing but the record write succeeding, creation returns a
checkpoint with both artifact paths empty. -/
theorem create_checkpoint_subartifact_failure_swallowed_witness :
    ∃ cp st', create_system_checkpoint ⟨false, false, true⟩
        ⟨7, some "{}", some "D", some "L", []⟩ = Except.ok (cp, st') ∧
      cp.configuration = Json.obj [] ∧ cp.database_backup = "" ∧ cp.logs_backup = "" := by
  obtain ⟨cp, st', h1, h2, h3, h4⟩ :=
    create_checkpoint_subartifact_failure_swallowed ⟨false, false, true⟩
      ⟨7, some "{}", some "D", some "L", []⟩ "{}" (Json.obj []) rfl rfl rfl
  exact ⟨cp, st', h1, h2, h3 (Or.inl rfl), h4 (Or.inl rfl)⟩

/-- I/O behaviour of the C2 counterexample: the database copy fails, the
rest succeeds. -/
def c2IO : IOBehavior := ⟨false, true, true⟩

/-- Initial state of the C2 counterexample: a live database exists, so the
database copy is genuinely attempted and fails. -/
def c2State : SysState := ⟨100, some "{}", some "DBDATA", some "LOGDATA", []⟩

/-- Checkpoint produced in the C2 counterexample: note the empty
database-backup path. -/
def c2Checkpoint : Checkpoint :=
  ⟨"checkpoint_100", 100, Json.obj [], "", "checkpoint_100_logs.tar.gz"⟩

/-- C2 counterexample.  The live database exists and its copy cannot be
written, yet `create_system_checkpoint` does not fail with an IOError: it
returns the checkpoint normally, with an empty `database_backup` path, and
the checkpoint record is discoverable on disk. -/
theorem create_checkpoint_db_copy_failure_still_succeeds :
    create_system_checkpoint c2IO c2State =
      Except.ok (c2Checkpoint,
        ⟨100, some "{}", some "DBDATA", some "LOGDATA",
          [⟨"checkpoint_100_logs.tar.gz", 100, BContent.fileData "LOGDATA"⟩,
            ⟨"checkpoint_100.checkpoint", 100, BContent.record c2Checkpoint⟩]⟩) := rfl

/-- C3 (amended).  `restore_from_checkpoint` reports its outcome via the
returned boolean in every case — no exception reaches the caller: for an
unknown id the internally raised FileNotFoundError is caught by the method's
own blanket handler and the caller receives the ordinary return value
`False`; for a known id whose file holds a checkpoint record the caller
receives `True` with the restored state. -/
theorem restore_from_checkpoint_reports_by_return (st : SysState) (checkpoint_id : String) :
    (findBackupFile st.backupFiles (checkpoint_id ++ ".checkpoint") = none →
      restore_from_checkpoint st checkpoint_id = Except.ok (false, st)) ∧
    (∀ f cp, findBackupFile st.backupFiles (checkpoint_id ++ ".checkpoint") = some f →
      f.content = BContent.record cp →
      restore_from_checkpoint st checkpoint_id = Except.ok (true, applyRestore st cp)) := by
  constructor
  · intro h; simp [restore_from_checkpoint, h]
  · intro f cp hf hc; simp [restore_from_checkpoint, hf, hc]

/-- Witness for C3 (amended) at a concrete input: restoring an id with no
checkpoint file returns `False` normally. -/
theorem restore_from_checkpoint_reports_by_return_witness :
    restore_from_checkpoint ⟨50, none, none, none, []⟩ "checkpoint_1" =
      Except.ok (false, ⟨50, none, none, none, []⟩) :=
  (restore_from_checkpoint_reports_by_return ⟨50, none, none, none, []⟩ "checkpoint_1").1 rfl

/-- Store state of the C3 counterexample: one known checkpoint exists, and a
different, unknown id is requested. -/
def c3State : SysState :=
  ⟨50, some "{}", some "dbdata", none,
    [⟨"checkpoint_5.checkpoint", 5,
      BContent.record ⟨"checkpoint_5", 5, Json.obj [], "", ""⟩⟩]⟩

/-- C3 counterexample.  Restoring the unknown id `checkpoint_999` does not
fail with a NotFoundError raised to the caller: the call returns normally
(`.ok`, never `.error`) with the success boolean `False` and the state
untouched. -/
theorem restore_unknown_id_returns_false_without_raising :
    restore_from_checkpoint c3State "checkpoint_999" = Except.ok (false, c3State) := rfl

/-- One creation step of the retention scenario: advance the clock to `t`
and create a checkpoint (all I/O succeeding); the error branch is
unreachable in the scenario. -/
def createAt (t : Nat) (st : SysState) : SysState :=
  match create_system_checkpoint allIOOk { st with now := t } with
  | .ok r => r.2
  | .error _ => st

/-- Start state of the retention scenario: valid configuration, live
database and logs, empty backup directory. -/
def retentionScenarioStart : SysState := ⟨0, some "{}", some "DB", some "LOG", []⟩

/-- The retention scenario: twelve checkpoint creations at times 1,…,12. -/
def retentionScenarioAfter12 : SysState :=
  (List.range 12).foldl (fun st i => createAt (i + 1) st) retentionScenarioStart

/-- C5.  Retention pruning runs as part of every creation
(`create_system_checkpoint` invokes `cleanup_old_backups` before
returning), and with `max_backups = 10`: (i) after pruning, no surviving
file is one of the checkpoints beyond the 10 newest (newest-first order) nor
a sibling artifact named `{stem}_*` of one of them; (ii) concretely, after
creating 12 checkpoints on an initially empty store, exactly the 10 newest
checkpoint records remain, each with its two sibling artifacts, and the 2
oldest are gone together with their siblings. -/
theorem cleanup_retention_keeps_ten_newest :
    (∀ (st : SysState) (d f : BFile),
        d ∈ (sortByMtimeDesc (st.backupFiles.filter isCheckpointFile)).drop max_backups →
        f ∈ (cleanup_old_backups st).backupFiles →
        f.name ≠ d.name ∧
          startsWithChars (checkpointStem d.name ++ "_").data f.name.data = false) ∧
    retentionScenarioAfter12.backupFiles.map (fun f => f.name) =
      ["checkpoint_3_database.db", "checkpoint_3_logs.tar.gz", "checkpoint_3.checkpoint",
       "checkpoint_4_database.db", "checkpoint_4_logs.tar.gz", "checkpoint_4.checkpoint",
       "checkpoint_5_database.db", "checkpoint_5_logs.tar.gz", "checkpoint_5.checkpoint",
       "checkpoint_6_database.db", "checkpoint_6_logs.tar.gz", "checkpoint_6.checkpoint",
       "checkpoint_7_database.db", "checkpoint_7_logs.tar.gz", "checkpoint_7.checkpoint",
       "checkpoint_8_database.db", "checkpoint_8_logs.tar.gz", "checkpoint_8.checkpoint",
       "checkpoint_9_database.db", "checkpoint_9_logs.tar.gz", "checkpoint_9.checkpoint",
       "checkpoint_10_database.db", "checkpoint_10_logs.tar.gz", "checkpoint_10.checkpoint",
       "checkpoint_11_database.db", "checkpoint_11_logs.tar.gz", "checkpoint_11.checkpoint",
       "checkpoint_12_database.db", "checkpoint_12_logs.tar.gz", "checkpoint_12.checkpoint"]
      := by
  constructor
  · intro st d f hd hf
    have hf' : f ∈ st.backupFiles.filter (fun g =>
        !(matchesDeleted ((sortByMtimeDesc (st.backupFiles.filter isCheckpointFile)).drop
          max_backups) g)) := hf
    have hflt : matchesDeleted ((sortByMtimeDesc
        (st.backupFiles.filter isCheckpointFile)).drop max_backups) f = false := by
      simpa using (List.mem_filter.mp hf').2
    simp only [matchesDeleted] at hflt
    have hall := List.any_eq_false.mp hflt d hd
    rw [Bool.or_eq_true, not_or] at hall
    obtain ⟨h1, h2⟩ := hall
    refine ⟨fun he => h1 (by simp [he]), ?_⟩
    cases hb : startsWithChars (checkpointStem d.name ++ "_").data f.name.data with
    | false => rfl
    | true => exact absurd hb h2
  · rfl

/-- Store used by the C5 witness: eleven checkpoint records; the file of
mtime 1 is the only one beyond the ten newest. -/
def retentionWitnessState : SysState :=
  ⟨12, none, none, none,
    [⟨"checkpoint_2.checkpoint", 2, .fileData "x"⟩,
     ⟨"checkpoint_1.checkpoint", 1, .fileData "x"⟩,
     ⟨"checkpoint_3.checkpoint", 3, .fileData "x"⟩,
     ⟨"checkpoint_4.checkpoint", 4, .fileData "x"⟩,
     ⟨"checkpoint_5.checkpoint", 5, .fileData "x"⟩,
     ⟨"checkpoint_6.checkpoint", 6, .fileData "x"⟩,
     ⟨"checkpoint_7.checkpoint", 7, .fileData "x"⟩,
     ⟨"checkpoint_8.checkpoint", 8, .fileData "x"⟩,
     ⟨"checkpoint_9.checkpoint", 9, .fileData "x"⟩,
     ⟨"checkpoint_10.checkpoint", 10, .fileData "x"⟩,
     ⟨"checkpoint_11.checkpoint", 11, .fileData "x"⟩]⟩

/-- Witness for C5 at a concrete input: in a store of eleven checkpoints the
one beyond the ten newest is `checkpoint_1`, and the surviving
`checkpoint_2` record is neither it nor one of its siblings. -/
theorem cleanup_retention_keeps_ten_newest_witness :
    (⟨"checkpoint_2.checkpoint", 2, BContent.fileData "x"⟩ : BFile).name ≠
        (⟨"checkpoint_1.checkpoint", 1, BContent.fileData "x"⟩ : BFile).name ∧
      startsWithChars (checkpointStem (⟨"checkpoint_1.checkpoint", 1,
          BContent.fileData "x"⟩ : BFile).name ++ "_").data
        (⟨"checkpoint_2.checkpoint", 2, BContent.fileData "x"⟩ : BFile).name.data = false := by
  refine cleanup_retention_keeps_ten_newest.1 retentionWitnessState
    ⟨"checkpoint_1.checkpoint", 1, .fileData "x"⟩
    ⟨"checkpoint_2.checkpoint", 2, .fileData "x"⟩ ?_ ?_
  · have h : (sortByMtimeDesc (retentionWitnessState.backupFiles.filter
        isCheckpointFile)).drop max_backups =
        [⟨"checkpoint_1.checkpoint", 1, .fileData "x"⟩] := rfl
    rw [h]
    exact List.mem_singleton_self _
  · have h : (cleanup_old_backups retentionWitnessState).backupFiles =
        (⟨"checkpoint_2.checkpoint", 2, .fileData "x"⟩ : BFile) ::
          [⟨"checkpoint_3.checkpoint", 3, .fileData "x"⟩,
           ⟨"checkpoint_4.checkpoint", 4, .fileData "x"⟩,
           ⟨"checkpoint_5.checkpoint", 5, .fileData "x"⟩,
           ⟨"checkpoint_6.checkpoint", 6, .fileData "x"⟩,
           ⟨"checkpoint_7.checkpoint", 7, .fileData "x"⟩,
           ⟨"checkpoint_8.checkpoint", 8, .fileData "x"⟩,
           ⟨"checkpoint_9.checkpoint", 9, .fileData "x"⟩,
           ⟨"checkpoint_10.checkpoint", 10, .fileData "x"⟩,
           ⟨"checkpoint_11.checkpoint", 11, .fileData "x"⟩] := rfl
    rw [h]
    exact List.mem_cons_self _ _

/-- C7 (amended).  Restoring a just-created checkpoint (store initially
empty, all I/O succeeding) rewrites the live configuration file with the
indent-2 JSON serialization of the configuration value that `json.load`
captured at creation time: the restored file is value-equal to the file
live at creation, and byte-for-byte equal only when that file was already
in exactly this serialization format. -/
theorem create_restore_configuration_value_roundtrip
    (s : String) (v : Json) (db logs : Option String)
    (hparse : json_loads s = some v) :
    ∃ cp st₁ st₂,
      create_system_checkpoint allIOOk ⟨100, some s, db, logs, []⟩ = Except.ok (cp, st₁) ∧
      cp.configuration = v ∧
      restore_from_checkpoint st₁ cp.checkpoint_id = Except.ok (true, st₂) ∧
      st₂.configContent = some (json_dumps_indent2 v) := by
  have hload : loadConfiguration (some s) = Except.ok v := by
    simp [loadConfiguration, hparse]
  cases db with
  | none =>
      cases logs with
      | none =>
          refine ⟨⟨"checkpoint_100", 100, v, "", ""⟩,
            ⟨100, some s, none, none,
              [⟨"checkpoint_100.checkpoint", 100,
                .record ⟨"checkpoint_100", 100, v, "", ""⟩⟩]⟩,
            ⟨100, some (json_dumps_indent2 v), none, none,
              [⟨"checkpoint_100.checkpoint", 100,
                .record ⟨"checkpoint_100", 100, v, "", ""⟩⟩]⟩, ?_, rfl, rfl, rfl⟩
          exact create_system_checkpoint_ok_of_load allIOOk _ v "checkpoint_100" hload
            rfl (by rw [show ((⟨100, some s, none, none, []⟩ : SysState)).now = (100 : Nat)
              from rfl]; rfl)
      | some lg =>
          refine ⟨⟨"checkpoint_100", 100, v, "", "checkpoint_100_logs.tar.gz"⟩,
            ⟨100, some s, none, some lg,
              [⟨"checkpoint_100_logs.tar.gz", 100, .fileData lg⟩,
               ⟨"checkpoint_100.checkpoint", 100,
                .record ⟨"checkpoint_100", 100, v, "", "checkpoint_100_logs.tar.gz"⟩⟩]⟩,
            ⟨100, some (json_dumps_indent2 v), none, some lg,
              [⟨"checkpoint_100_logs.tar.gz", 100, .fileData lg⟩,
               ⟨"checkpoint_100.checkpoint", 100,
                .record ⟨"checkpoint_100", 100, v, "", "checkpoint_100_logs.tar.gz"⟩⟩]⟩,
            ?_, rfl, rfl, rfl⟩
          exact create_system_checkpoint_ok_of_load allIOOk _ v "checkpoint_100" hload
            rfl (by rw [show ((⟨100, some s, none, some lg, []⟩ : SysState)).now = (100 : Nat)
              from rfl]; rfl)
  | some d =>
      cases logs with
      | none =>
          refine ⟨⟨"checkpoint_100", 100, v, "checkpoint_100_database.db", ""⟩,
            ⟨100, some s, some d, none,
              [⟨"checkpoint_100_database.db", 100, .fileData d⟩,
               ⟨"checkpoint_100.checkpoint", 100,
                .record ⟨"checkpoint_100", 100, v, "checkpoint_100_database.db", ""⟩⟩]⟩,
            ⟨100, some (json_dumps_indent2 v), some d, none,
              [⟨"checkpoint_100_database.db", 100, .fileData d⟩,
               ⟨"checkpoint_100.checkpoint", 100,
                .record ⟨"checkpoint_100", 100, v, "checkpoint_100_database.db", ""⟩⟩]⟩,
            ?_, rfl, rfl, rfl⟩
          exact create_system_checkpoint_ok_of_load allIOOk _ v "checkpoint_100" hload
            rfl (by rw [show ((⟨100, some s, some d, none, []⟩ : SysState)).now = (100 : Nat)
              from rfl]; rfl)
      | some lg =>
          refine ⟨⟨"checkpoint_100", 100, v, "checkpoint_100_database.db",
              "checkpoint_100_logs.tar.gz"⟩,
            ⟨100, some s, some d, some lg,
              [⟨"checkpoint_100_database.db", 100, .fileData d⟩,
               ⟨"checkpoint_100_logs.tar.gz", 100, .fileData lg⟩,
               ⟨"checkpoint_100.checkpoint", 100,
                .record ⟨"checkpoint_100", 100, v, "checkpoint_100_database.db",
                  "checkpoint_100_logs.tar.gz"⟩⟩]⟩,
            ⟨100, some (json_dumps_indent2 v), some d, some lg,
              [⟨"checkpoint_100_database.db", 100, .fileData d⟩,
               ⟨"checkpoint_100_logs.tar.gz", 100, .fileData lg⟩,
               ⟨"checkpoint_100.checkpoint", 100,
                .record ⟨"checkpoint_100", 100, v, "checkpoint_100_database.db",
                  "checkpoint_100_logs.tar.gz"⟩⟩]⟩,
            ?_, rfl, rfl, rfl⟩
          exact create_system_checkpoint_ok_of_load allIOOk _ v "checkpoint_100" hload
            rfl (by rw [show ((⟨100, some s, some d, some lg, []⟩ : SysState)).now = (100 : Nat)
              from rfl]; rfl)

/-- Witness for C7 (amended) at a concrete input: configuration file
content `"{ }"` parses to the empty object, and the restore of the created
checkpoint writes back its serialization. -/
theorem create_restore_configuration_value_roundtrip_witness :
    ∃ cp st₁ st₂,
      create_system_checkpoint allIOOk ⟨100, some "{ }", none, none, []⟩ =
        Except.ok (cp, st₁) ∧
      cp.configuration = Json.obj [] ∧
      restore_from_checkpoint st₁ cp.checkpoint_id = Except.ok (true, st₂) ∧
      st₂.configContent = some (json_dumps_indent2 (Json.obj [])) :=
  create_restore_configuration_value_roundtrip "{ }" (Json.obj []) none none rfl

/-- Live state of the C7 counterexample: the configuration file holds
`"{ }"`, a three-byte spelling of the empty object. -/
def c7State : SysState := ⟨100, some "{ }", none, none, []⟩

/-- Checkpoint created from `c7State`. -/
def c7Checkpoint : Checkpoint := ⟨"checkpoint_100", 100, Json.obj [], "", ""⟩

/-- Store state after the C7 counterexample's creation. -/
def c7AfterCreate : SysState :=
  ⟨100, some "{ }", none, none,
    [⟨"checkpoint_100.checkpoint", 100, BContent.record c7Checkpoint⟩]⟩

/-- C7 counterexample.  Creating a checkpoint while the live configuration
file reads `"{ }"` and then restoring it succeeds, but rewrites the file as
`"{}"` — the `json.dump(..., indent=2)` serialization of the captured value
— which is not byte-for-byte equal to the content at creation time. -/
theorem restore_configuration_not_byte_identical :
    create_system_checkpoint allIOOk c7State = Except.ok (c7Checkpoint, c7AfterCreate) ∧
    restore_from_checkpoint c7AfterCreate "checkpoint_100" =
      Except.ok (true, ⟨100, some "{}", none, none, c7AfterCreate.backupFiles⟩) ∧
    some "{}" ≠ c7State.configContent := by
  refine ⟨rfl, rfl, by decide⟩

end FailsafeRecovery
